import Mathlib

/-!
Verification of `GkeEntityProvider`
(`plugins/catalog-backend-module-gcp/src/providers/GkeEntityProvider.ts`).

The provider periodically lists GKE clusters from the Google container API
(one `listClusters` call per configured parent), maps each cluster record to
a catalog `DeferredEntity`, and submits the whole set to the catalog
connection as one `full` mutation.

Shallow embedding conventions:
* TypeScript string-or-null-or-undefined fields are modelled by `JStr`
  (`undef`, `jnull`, `str s`), with JavaScript truthiness (`JStr.truthy`)
  and template-literal interpolation (`JStr.interp`: `undefined` prints as
  `"undefined"`, `null` as `"null"`).
* Fields where the code only distinguishes "nullish or not"
  (`masterAuth`, `response.clusters`, list entries) are modelled by `Option`.
* Promises are modelled by `Except String`: a rejected promise is
  `Except.error`, `Promise.all` rejects iff some member rejects
  (`collectResponses`).
* Effects of one `refresh` cycle (cloud API calls, sink calls, log lines)
  are recorded in a `Trace`; a thrown exception is the `Except.error` result
  component of `refreshRun`.
-/

set_option autoImplicit false

/-- A JavaScript `string | null | undefined` value. -/
inductive JStr where
  | undef
  | jnull
  | str (s : String)
deriving DecidableEq, Repr

/-- JavaScript truthiness of a `string | null | undefined` value:
`undefined`, `null` and `""` are falsy, every other string is truthy. -/
def JStr.truthy : JStr → Bool
  | .undef => false
  | .jnull => false
  | .str s => !(s == "")

/-- JavaScript template-literal interpolation `${x}`:
`undefined` renders as `"undefined"`, `null` as `"null"`. -/
def JStr.interp : JStr → String
  | .undef => "undefined"
  | .jnull => "null"
  | .str s => s

/-- `container.protos.google.container.v1.IMasterAuth` (the one field used). -/
structure MasterAuth where
  clusterCaCertificate : JStr
deriving DecidableEq, Repr

/-- `container.protos.google.container.v1.ICluster` (the fields the provider
reads). `masterAuth` is `Option` because the code only applies `?.` to it. -/
structure ICluster where
  name : JStr
  selfLink : JStr
  location : JStr
  endpoint : JStr
  masterAuth : Option MasterAuth
deriving DecidableEq, Repr

/-- `entity.spec` of the produced resource entity. -/
structure EntitySpec where
  type : String
  owner : String
deriving DecidableEq, Repr

/-- `entity.metadata`. `anns` models the `metadata.annotations` string map,
kept as the key-value list in source order; `nameSpace` models
`metadata.namespace`. -/
structure EntityMetadata where
  anns : List (String × String)
  name : String
  nameSpace : String
deriving DecidableEq, Repr

/-- The catalog entity body. -/
structure Entity where
  apiVersion : String
  kind : String
  metadata : EntityMetadata
  spec : EntitySpec
deriving DecidableEq, Repr

/-- `DeferredEntity` from `@backstage/plugin-catalog-node`: the entity plus
its `locationKey`. -/
structure DeferredEntity where
  locationKey : String
  entity : Entity
deriving DecidableEq, Repr

/-- `ANNOTATION_KUBERNETES_API_SERVER` from `@backstage/plugin-kubernetes-common`. -/
def annApiServer : String := "kubernetes.io/api-server"

/-- `ANNOTATION_KUBERNETES_API_SERVER_CA` from `@backstage/plugin-kubernetes-common`. -/
def annApiServerCa : String := "kubernetes.io/api-server-certificate-authority"

/-- `ANNOTATION_KUBERNETES_AUTH_PROVIDER` from `@backstage/plugin-kubernetes-common`. -/
def annAuthProvider : String := "kubernetes.io/auth-provider"

/-- `getProviderName()`. -/
def getProviderName : String := "gcp-gke"

/-- `clusterToResource`, translated clause by clause:

```ts
const location = `${this.getProviderName()}:${cluster.location}`;
if (!cluster.name || !cluster.selfLink || !location || !cluster.endpoint) {
  this.logger.warn(...);
  return undefined;
}
return { locationKey: location, entity: { ... } };
```

Note the guard tests `!location` — the derived template string — not
`!cluster.location`. -/
def clusterToResource (cluster : ICluster) : Option DeferredEntity :=
  let location := getProviderName ++ ":" ++ cluster.location.interp
  if !cluster.name.truthy || !cluster.selfLink.truthy || location == ""
      || !cluster.endpoint.truthy then
    -- logger.warn("ignoring partial cluster, ...")
    none
  else
    some
      { locationKey := location
        entity :=
          { apiVersion := "backstage.io/v1alpha1"
            kind := "Resource"
            metadata :=
              { anns :=
                  [(annApiServer, "https://" ++ cluster.endpoint.interp),
                   (annApiServerCa,
                     match cluster.masterAuth with
                     | none => ""
                     | some ma =>
                       -- `cluster.masterAuth?.clusterCaCertificate || ''`
                       if ma.clusterCaCertificate.truthy then
                         ma.clusterCaCertificate.interp
                       else ""),
                   (annAuthProvider, "google"),
                   ("backstage.io/managed-by-location", location),
                   ("backstage.io/managed-by-origin-location", location)]
                name := cluster.name.interp
                nameSpace := "default" }
            spec :=
              { type := "kubernetes-cluster"
                owner := "unknown" } } }

/-- `filterOutUndefinedCluster`: `c !== undefined && c !== null`. -/
def filterOutUndefinedCluster (c : Option ICluster) : Bool :=
  !c.isNone

/-- `filterOutUndefinedDeferredEntity`: `e !== undefined`. -/
def filterOutUndefinedDeferredEntity (e : Option DeferredEntity) : Bool :=
  !e.isNone

/-- One `listClusters` response: its `clusters` field may itself be nullish,
and each entry may be nullish. -/
structure ListClustersResponse where
  clusters : Option (List (Option ICluster))
deriving DecidableEq, Repr

/-- Per-parent body of `getClusters`:
`response.clusters?.filter(this.filterOutUndefinedCluster) ?? []`.
The trailing `.filterMap id` realises the TypeScript type-guard `c is
ICluster`: after the filter every entry is known non-nullish. -/
def parentClusters (response : ListClustersResponse) : List ICluster :=
  match response.clusters with
  | some cs => (cs.filter filterOutUndefinedCluster).filterMap id
  | none => []

/-- `Promise.all` over the per-parent `listClusters` promises: rejects iff
some member rejects, otherwise yields all responses in order. -/
def collectResponses :
    List (Except String ListClustersResponse) →
      Except String (List ListClustersResponse)
  | [] => .ok []
  | r :: rest =>
    match r with
    | .error e => .error e
    | .ok resp =>
      match collectResponses rest with
      | .error e => .error e
      | .ok resps => .ok (resp :: resps)

/-- `getClusters`, as a function of the outcome of each parent's
`listClusters` call (one list element per configured parent):
await `Promise.all`, extract each parent's filtered cluster list, then
`clusters.flat()`. -/
def getClusters (results : List (Except String ListClustersResponse)) :
    Except String (List ICluster) :=
  match collectResponses results with
  | .error e => .error e
  | .ok responses => .ok ((responses.map parentClusters).flatten)

/-- One sink call `connection.applyMutation({ type, entities })`. -/
structure Mutation where
  type : String
  entities : List DeferredEntity
deriving DecidableEq, Repr

/-- Observable effects of one `refresh` invocation. -/
structure Trace where
  /-- number of `clusterManagerClient.listClusters` calls issued -/
  apiCalls : Nat
  /-- `applyMutation` calls, in order -/
  sinkCalls : List Mutation
  /-- `logger.error` lines -/
  errorLogs : Nat
  /-- `logger.warn` lines (one per ignored partial cluster) -/
  warnLogs : Nat
deriving DecidableEq, Repr

/-- `refresh`, as a function of the stored connection (`none` before
`connect`) and of the outcome of each parent's `listClusters` call.
Returns the effect trace and `Except.error` when `refresh` throws:

```ts
if (!this.connection) { throw new Error('Not initialized'); }
try { clusters = await this.getClusters(); }
catch (e) { this.logger.error(...); return; }
const resources = clusters.map(c => this.clusterToResource(c))
    .filter(this.filterOutUndefinedDeferredEntity) ?? [];
await this.connection.applyMutation({ type: 'full', entities: resources });
```
-/
def refreshRun (connection : Option Unit)
    (results : List (Except String ListClustersResponse)) :
    Trace × Except String Unit :=
  match connection with
  | none =>
    ({ apiCalls := 0, sinkCalls := [], errorLogs := 0, warnLogs := 0 },
     .error "Not initialized")
  | some _ =>
    match getClusters results with
    | .error _ =>
      -- logger.error('error fetching GKE clusters', e); return;
      ({ apiCalls := results.length, sinkCalls := [], errorLogs := 1,
         warnLogs := 0 },
       .ok ())
    | .ok clusters =>
      let mapped := clusters.map clusterToResource
      let resources := (mapped.filter filterOutUndefinedDeferredEntity).filterMap id
      ({ apiCalls := results.length
         sinkCalls := [{ type := "full", entities := resources }]
         errorLogs := 0
         warnLogs := (mapped.filter (fun e => e.isNone)).length },
       .ok ())

/-- The task body installed by `createScheduleFn`:
`try { await this.refresh(); } catch (error) { this.logger.error(error); }`.
Takes the trace/outcome of the wrapped `refresh` and yields the trace/outcome
of the scheduled task function itself. -/
def scheduledTaskFn (run : Trace × Except String Unit) :
    Trace × Except String Unit :=
  match run with
  | (tr, .ok _) => (tr, .ok ())
  | (tr, .error _) => ({ tr with errorLogs := tr.errorLogs + 1 }, .ok ())

/-- The mutable instance state of `GkeEntityProvider`: the only field ever
assigned outside the constructor is `this.connection` (written by `connect`).
`logger`, `scheduleFn`, `gkeParents` and `clusterManagerClient` are
`readonly`. -/
structure ProviderState where
  connection : Option Unit
deriving DecidableEq, Repr

/-- `connect(connection)`: stores the connection (scheduling is handled by
the task runner). -/
def connect (_s : ProviderState) : ProviderState :=
  { connection := some () }

/-- One `refresh` cycle as a state transformer: `refresh` reads
`this.connection` but assigns no instance field, so the state passes through
unchanged alongside the cycle's trace and outcome. -/
def refreshStep (s : ProviderState)
    (results : List (Except String ListClustersResponse)) :
    ProviderState × Trace × Except String Unit :=
  (s, refreshRun s.connection results)

/-- Spec-side formulation of one parent's contribution to the snapshot:
the valid, mapped entities of that parent's response. Used to compare
`refresh`'s flatten-then-map pipeline with the claims' per-parent union. -/
def validMappedEntities (r : ListClustersResponse) : List DeferredEntity :=
  ((parentClusters r).map clusterToResource).filterMap id

/-! ### Helper lemmas -/

lemma filterMap_id_filter_not_isNone {α : Type} (xs : List (Option α)) :
    ((xs.filter fun e => !e.isNone).filterMap id) = xs.filterMap id := by
  induction xs with
  | nil => rfl
  | cons x t ih =>
    have ih2 : ((t.filter fun e => e.isSome).filterMap id) = t.filterMap id := by
      simpa using ih
    cases x <;> simp [List.filter_cons, List.filterMap_cons, ih2]

lemma collectResponses_map_ok (responses : List ListClustersResponse) :
    collectResponses (responses.map Except.ok) = Except.ok responses := by
  induction responses with
  | nil => rfl
  | cons r t ih => simp [collectResponses, ih]

lemma collectResponses_of_mem_error (msg : String)
    (results : List (Except String ListClustersResponse))
    (h : Except.error msg ∈ results) :
    ∃ e, collectResponses results = Except.error e := by
  induction results with
  | nil => cases h
  | cons r t ih =>
    cases h with
    | head => exact ⟨msg, rfl⟩
    | tail _ hmem =>
      obtain ⟨e, he⟩ := ih hmem
      cases r with
      | error e0 => exact ⟨e0, rfl⟩
      | ok resp => exact ⟨e, by simp [collectResponses, he]⟩

lemma getClusters_map_ok (responses : List ListClustersResponse) :
    getClusters (responses.map Except.ok) =
      Except.ok ((responses.map parentClusters).flatten) := by
  simp [getClusters, collectResponses_map_ok]

lemma validMappedEntities_eq (r : ListClustersResponse) :
    validMappedEntities r = (parentClusters r).filterMap clusterToResource := by
  simp [validMappedEntities, List.filterMap_map]

lemma providerLocation_ne_empty (s : String) :
    getProviderName ++ ":" ++ s ≠ "" := by
  intro h
  have hlen : (getProviderName ++ ":" ++ s).length = String.length "" :=
    congrArg String.length h
  rw [String.length_append, String.length_append] at hlen
  have h7 : getProviderName.length = 7 := rfl
  have hc : String.length ":" = 1 := rfl
  have h0 : String.length "" = 0 := rfl
  rw [h7, hc, h0] at hlen
  omega

/-! ### Claims -/

/-- C1 (code_bug evidence). The claim says a ResourceEntity is constructed
iff `name`, `selfLink`, `location` and `endpoint` are all present and
non-empty, but `clusterToResource` tests `!location` on the derived string
`"gcp-gke:" + interp(cluster.location)` — which is never empty — instead of
on `cluster.location` itself. Hence a cluster whose `location` is undefined
(all other required fields present) still produces an entity, with
locationKey `"gcp-gke:undefined"`, contradicting both the claim and the
code's own warning message, which names `location` as a field whose absence
causes the record to be ignored. -/
theorem clusterToResource_missing_location_still_builds_entity :
    clusterToResource
        { name := .str "a", selfLink := .str "s", location := .undef,
          endpoint := .str "1.2.3.4", masterAuth := none } =
      some
        { locationKey := "gcp-gke:undefined"
          entity :=
            { apiVersion := "backstage.io/v1alpha1"
              kind := "Resource"
              metadata :=
                { anns :=
                    [(annApiServer, "https://1.2.3.4"),
                     (annApiServerCa, ""),
                     (annAuthProvider, "google"),
                     ("backstage.io/managed-by-location", "gcp-gke:undefined"),
                     ("backstage.io/managed-by-origin-location",
                       "gcp-gke:undefined")]
                  name := "a"
                  nameSpace := "default" }
              spec := { type := "kubernetes-cluster", owner := "unknown" } } } := by
  rfl

/-- C6: calling `refresh` before `connect` has stored a connection throws
(`Error('Not initialized')` propagates to the caller) and performs no cloud
API call and no sink call. -/
theorem refresh_before_connect_throws
    (results : List (Except String ListClustersResponse)) :
    refreshRun none results =
      ({ apiCalls := 0, sinkCalls := [], errorLogs := 0, warnLogs := 0 },
       Except.error "Not initialized") := by
  rfl

/-- C8: when flattening per-parent list results, every nullish cluster entry
is dropped before mapping: one parent's contribution is exactly the
non-nullish entries of its `clusters` field (so `clusterToResource` is only
applied to actual cluster records), and every entry surviving the
`filterOutUndefinedCluster` filter is non-nullish. -/
theorem parentClusters_drops_nullish (cs : List (Option ICluster)) :
    parentClusters { clusters := some cs } = cs.filterMap id ∧
    (cs.filter filterOutUndefinedCluster).all Option.isSome = true := by
  constructor
  · show (cs.filter fun c => !c.isNone).filterMap id = cs.filterMap id
    exact filterMap_id_filter_not_isNone cs
  · rw [List.all_eq_true]
    intro x hx
    rcases List.mem_filter.mp hx with ⟨-, hkeep⟩
    cases x with
    | none => simp [filterOutUndefinedCluster] at hkeep
    | some a => rfl

/-- C10: a successful `listClusters` response whose `clusters` field is
nullish is treated as an empty list: it contributes zero clusters, and
`getClusters` over any list of successful responses succeeds (never
throws), returning the flattened per-parent contributions. -/
theorem nullish_clusters_field_is_empty_list
    (responses : List ListClustersResponse) :
    parentClusters { clusters := none } = [] ∧
    getClusters (responses.map Except.ok) =
      Except.ok ((responses.map parentClusters).flatten) := by
  exact ⟨rfl, getClusters_map_ok responses⟩

lemma clusterToResource_eq_some (c : ICluster)
    (h1 : c.name.truthy = true) (h2 : c.selfLink.truthy = true)
    (h4 : c.endpoint.truthy = true) :
    clusterToResource c =
      some
        { locationKey := getProviderName ++ ":" ++ c.location.interp
          entity :=
            { apiVersion := "backstage.io/v1alpha1"
              kind := "Resource"
              metadata :=
                { anns :=
                    [(annApiServer, "https://" ++ c.endpoint.interp),
                     (annApiServerCa,
                       match c.masterAuth with
                       | none => ""
                       | some ma =>
                         if ma.clusterCaCertificate.truthy then
                           ma.clusterCaCertificate.interp
                         else ""),
                     (annAuthProvider, "google"),
                     ("backstage.io/managed-by-location",
                       getProviderName ++ ":" ++ c.location.interp),
                     ("backstage.io/managed-by-origin-location",
                       getProviderName ++ ":" ++ c.location.interp)]
                  name := c.name.interp
                  nameSpace := "default" }
              spec := { type := "kubernetes-cluster", owner := "unknown" } } } := by
  have hbeq : ((getProviderName ++ ":" ++ c.location.interp) == "") = false :=
    beq_eq_false_iff_ne.mpr (providerLocation_ne_empty c.location.interp)
  have hcond : (!c.name.truthy || !c.selfLink.truthy ||
      ((getProviderName ++ ":" ++ c.location.interp) == "")
      || !c.endpoint.truthy) = false := by
    rw [h1, h2, h4, hbeq]
    decide
  simp only [clusterToResource]
  rw [hcond]
  rfl

/-- C2: if any parent's list-clusters call rejects, the whole cycle aborts:
`refresh` makes no sink call, logs one error, and returns normally (does not
throw). -/
theorem refresh_aborts_cycle_on_parent_error (msg : String)
    (results : List (Except String ListClustersResponse))
    (h : Except.error msg ∈ results) :
    refreshRun (some ()) results =
      ({ apiCalls := results.length, sinkCalls := [], errorLogs := 1,
         warnLogs := 0 },
       Except.ok ()) := by
  obtain ⟨e, he⟩ := collectResponses_of_mem_error msg results h
  simp [refreshRun, getClusters, he]

/-- Witness for C2 at the concrete input of a single rejecting parent. -/
theorem refresh_aborts_cycle_on_parent_error_witness :
    refreshRun (some ()) [Except.error "boom"] =
      ({ apiCalls := 1, sinkCalls := [], errorLogs := 1, warnLogs := 0 },
       Except.ok ()) :=
  refresh_aborts_cycle_on_parent_error "boom" [Except.error "boom"]
    (List.mem_singleton.mpr rfl)

/-- C3: a cluster record with `name`, `selfLink`, `location` and `endpoint`
all present and non-empty yields exactly one ResourceEntity, whose
`locationKey` is `"<providerName>:<location>"` and whose annotation map
sends the Kubernetes API-server key to `"https://<endpoint>"`, where the
provider name is the constant `"gcp-gke"` returned by `getProviderName`. -/
theorem valid_cluster_entity_shape (c : ICluster)
    (h1 : c.name.truthy = true) (h2 : c.selfLink.truthy = true)
    (_h3 : c.location.truthy = true) (h4 : c.endpoint.truthy = true) :
    getProviderName = "gcp-gke" ∧
    ∃ e : DeferredEntity,
      clusterToResource c = some e ∧
      e.locationKey = getProviderName ++ ":" ++ c.location.interp ∧
      e.entity.metadata.anns.lookup annApiServer =
        some ("https://" ++ c.endpoint.interp) := by
  refine ⟨rfl, ⟨_, clusterToResource_eq_some c h1 h2 h4, rfl, ?_⟩⟩
  rfl

/-- Witness for C3 at a concrete fully-populated cluster record. -/
theorem valid_cluster_entity_shape_witness :
    getProviderName = "gcp-gke" ∧
    ∃ e : DeferredEntity,
      clusterToResource
          { name := .str "a", selfLink := .str "s",
            location := .str "us-central1", endpoint := .str "5.6.7.8",
            masterAuth := none } = some e ∧
      e.locationKey = "gcp-gke:us-central1" ∧
      e.entity.metadata.anns.lookup annApiServer = some "https://5.6.7.8" :=
  valid_cluster_entity_shape
    { name := .str "a", selfLink := .str "s", location := .str "us-central1",
      endpoint := .str "5.6.7.8", masterAuth := none }
    rfl rfl rfl rfl

/-- C4: when every parent's list call succeeds, `refresh` makes exactly one
sink call, of mutation type `"full"`, whose entity list is the union
(concatenation, in parent order) over all parents of the valid mapped
ResourceEntities of that parent; and `refresh` returns normally. -/
theorem refresh_single_full_mutation (responses : List ListClustersResponse) :
    (refreshRun (some ()) (responses.map Except.ok)).1.sinkCalls =
      [{ type := "full",
         entities := (responses.map validMappedEntities).flatten }] ∧
    (refreshRun (some ()) (responses.map Except.ok)).2 = Except.ok () := by
  have hg := getClusters_map_ok responses
  have hstep : ∀ xs : List (Option DeferredEntity),
      (xs.filter filterOutUndefinedDeferredEntity).filterMap id =
        xs.filterMap id := by
    intro xs
    exact filterMap_id_filter_not_isNone xs
  constructor
  · simp only [refreshRun, hg, hstep]
    simp only [List.filterMap_map, List.filterMap_flatten, List.map_map]
    have hfun : validMappedEntities =
        List.filterMap clusterToResource ∘ parentClusters :=
      funext validMappedEntities_eq
    rw [hfun, Function.id_comp]
  · simp [refreshRun, hg]

/-- C5: `refresh` keeps no state that alters later cycles: one cycle leaves
the provider state unchanged, so two consecutive cycles over the same
upstream list-call responses submit structurally identical entity sets (and
produce identical traces altogether). -/
theorem refresh_idempotent_on_same_data (s0 : ProviderState)
    (results : List (Except String ListClustersResponse)) :
    (refreshStep (connect s0) results).1 = connect s0 ∧
    (refreshStep ((refreshStep (connect s0) results).1) results).2.1.sinkCalls
      = (refreshStep (connect s0) results).2.1.sinkCalls := by
  exact ⟨rfl, rfl⟩

/-- C7: the scheduled task body wrapping `refresh` catches every exception
escaping `refresh` (so the scheduled invocation itself never throws and the
recurring schedule survives a failing cycle) and logs it: the task's error
outcome is always `ok`, and its error-log count is the cycle's plus one
exactly when `refresh` threw. -/
theorem scheduled_task_never_throws (connection : Option Unit)
    (results : List (Except String ListClustersResponse)) :
    (scheduledTaskFn (refreshRun connection results)).2 = Except.ok () ∧
    (scheduledTaskFn (refreshRun connection results)).1.errorLogs =
      (refreshRun connection results).1.errorLogs +
        (match (refreshRun connection results).2 with
         | .ok _ => 0
         | .error _ => 1) := by
  cases hp : refreshRun connection results with
  | mk tr res => cases res <;> simp [scheduledTaskFn]

/-- C9: every produced ResourceEntity carries, besides the API-server URL,
the auth-provider annotation `"google"` and both managed-by-location
annotations equal to its `locationKey`; its API-server-CA annotation is the
cluster's `masterAuth.clusterCaCertificate` string when that is a string,
and `""` when `masterAuth` or the certificate is nullish. -/
theorem produced_entity_fixed_annotation_values (c : ICluster)
    (e : DeferredEntity) (h : clusterToResource c = some e) :
    e.entity.metadata.anns.lookup annAuthProvider = some "google" ∧
    e.entity.metadata.anns.lookup "backstage.io/managed-by-location" =
      some e.locationKey ∧
    e.entity.metadata.anns.lookup "backstage.io/managed-by-origin-location" =
      some e.locationKey ∧
    e.entity.metadata.anns.lookup annApiServerCa =
      some (match c.masterAuth with
            | none => ""
            | some ma =>
              match ma.clusterCaCertificate with
              | .str s => s
              | _ => "") := by
  obtain ⟨nm, sl, loc, ep, ma⟩ := c
  simp only [clusterToResource] at h
  split at h
  · exact absurd h (by simp)
  · obtain rfl : _ = e := Option.some.inj h
    refine ⟨?_, ?_, ?_, ?_⟩
    · simp [List.lookup, annApiServer, annApiServerCa, annAuthProvider]
    · simp [List.lookup, annApiServer, annApiServerCa, annAuthProvider]
    · simp [List.lookup, annApiServer, annApiServerCa, annAuthProvider]
    · simp only [List.lookup, annApiServer, annApiServerCa, annAuthProvider]
      norm_num
      cases ma with
      | none => rfl
      | some m =>
        obtain ⟨cert⟩ := m
        cases cert with
        | undef => rfl
        | jnull => rfl
        | str s =>
          by_cases hs : s = ""
          · subst hs; rfl
          · simp [JStr.truthy, JStr.interp, hs]

/-- Witness for C9 at a concrete cluster carrying a CA certificate. -/
theorem produced_entity_fixed_annotation_values_witness :
    ([(annApiServer, "https://5.6.7.8"),
      (annApiServerCa, "CADATA"),
      (annAuthProvider, "google"),
      ("backstage.io/managed-by-location", "gcp-gke:us"),
      ("backstage.io/managed-by-origin-location", "gcp-gke:us")].lookup
        annAuthProvider = some "google" ∧
     [(annApiServer, "https://5.6.7.8"),
      (annApiServerCa, "CADATA"),
      (annAuthProvider, "google"),
      ("backstage.io/managed-by-location", "gcp-gke:us"),
      ("backstage.io/managed-by-origin-location", "gcp-gke:us")].lookup
        "backstage.io/managed-by-location" = some "gcp-gke:us" ∧
     [(annApiServer, "https://5.6.7.8"),
      (annApiServerCa, "CADATA"),
      (annAuthProvider, "google"),
      ("backstage.io/managed-by-location", "gcp-gke:us"),
      ("backstage.io/managed-by-origin-location", "gcp-gke:us")].lookup
        "backstage.io/managed-by-origin-location" = some "gcp-gke:us" ∧
     [(annApiServer, "https://5.6.7.8"),
      (annApiServerCa, "CADATA"),
      (annAuthProvider, "google"),
      ("backstage.io/managed-by-location", "gcp-gke:us"),
      ("backstage.io/managed-by-origin-location", "gcp-gke:us")].lookup
        annApiServerCa = some "CADATA") :=
  produced_entity_fixed_annotation_values
    { name := .str "a", selfLink := .str "s", location := .str "us",
      endpoint := .str "5.6.7.8",
      masterAuth := some { clusterCaCertificate := .str "CADATA" } }
    { locationKey := "gcp-gke:us"
      entity :=
        { apiVersion := "backstage.io/v1alpha1"
          kind := "Resource"
          metadata :=
            { anns :=
                [(annApiServer, "https://5.6.7.8"),
                 (annApiServerCa, "CADATA"),
                 (annAuthProvider, "google"),
                 ("backstage.io/managed-by-location", "gcp-gke:us"),
                 ("backstage.io/managed-by-origin-location", "gcp-gke:us")]
              name := "a"
              nameSpace := "default" }
          spec := { type := "kubernetes-cluster", owner := "unknown" } } }
    (by decide)
